import Mathlib

/-!
Shallow embedding of `src/ai-verifier/god_ai_verifier.py` (class `GodAIVerifier`).

Conventions of the embedding:
* Python floats are modelled as exact rationals (`ℚ`); every numeric literal of
  the source (`0.6`, `0.4`, `0.8`, `19.3`, `10.5`, `0.05`, `0.85`, `0.9`, `0.5`)
  is exactly representable.
* Calls into external libraries (`numpy`'s rng, `hashlib.sha256(...).hexdigest()`,
  `datetime.utcnow().isoformat()`, Python's `str()` formatting of floats, and
  `json.dump` / `json.load`) are uninterpreted functions collected in a `PyEnv`
  record; the NOVA-BLOCKS objects (`material_analyzer`, `quantum_simulator`,
  `interface.quantum_compute`) are likewise uninterpreted fields of the verifier
  state, absent (`none` / `false`) exactly when the source falls back to its mocks.
* A Python exception is an `Option String` threaded next to the partially built
  `verification_result` dictionary, so that fields written before the raise are
  kept, exactly as the mutated dict survives into the `except` handler.
* The `verification_result` dictionary is a record; the keys `ai_confidence`,
  `quantum_confidence` and `error`, which are *not* present in the initial dict
  literal (lines 83-94) and only appear when assigned later, are `Option` fields
  that start as `none`.
-/

namespace GodToken

/-- Python-style dynamic value, for the dictionaries whose shape the source does
not fix statically (the `quantum_compute` result and the mock
`quantum_verification` literal, which nests a dict and a bool). -/
inductive PyVal where
  | num (q : ℚ)
  | pybool (b : Bool)
  | pystr (s : String)
  | dict (entries : List (String × PyVal))

/-- The `quantum_input` dictionary built at lines 132-137 of the source. -/
structure QuantumInput where
  state : List ℚ
  metal_type : Int
  weight : ℚ
  purity : ℚ

/-- The `verification_result` dictionary (lines 83-94) together with the keys
added later (`ai_confidence` line 117/128, `quantum_confidence` line 143/150,
`error` line 178), which start absent (`none`). -/
structure VResult where
  verified : Bool
  confidence : ℚ
  metal_type : Int
  weight : ℚ
  purity : ℚ
  verification_id : String
  timestamp : String
  ai_analysis : List (String × ℚ)
  quantum_verification : PyVal
  blockchain_ready : Bool
  ai_confidence : Option ℚ
  quantum_confidence : Option ℚ
  error : Option String

/-- The ambient Python environment: every call the script makes into an external
library, as an uninterpreted function.
* `rng i` is the `i`-th draw of `np.random.default_rng().random((256,))`;
* `now` is `datetime.utcnow().isoformat()` at the time of the call;
* `sha256hex s` is `hashlib.sha256(s.encode()).hexdigest()`;
* `fmtFloat x` is Python's f-string rendering of the float `x`;
* `jdump` / `jload` are `json.dump` / `json.load` specialised to the history list
  (`jload` returns `Except` because `json.load` raises on malformed input). -/
structure PyEnv where
  numpyAvailable : Bool
  rng : Nat → ℚ
  now : String
  sha256hex : String → String
  fmtFloat : ℚ → String
  jdump : List VResult → String
  jload : String → Except String (List VResult)

/-- The mutable state of a `GodAIVerifier` instance, restricted to the fields
`verify_metal_properties` reads: `material_analyzer` (an object whose
`analyze_material_properties` returns a dict of numbers, or `None`),
the truthiness of `quantum_simulator`, `interface` (whose `quantum_compute`
returns a dict, or `None`), and `verification_history`. -/
structure GodAIVerifier where
  material_analyzer : Option (List ℚ → Except String (List (String × ℚ)))
  quantum_simulator : Bool
  interface : Option (QuantumInput → Except String PyVal)
  verification_history : List VResult

/-- Python dict subscription `d[k]` on a dict of numbers: `KeyError` when the
key is absent. -/
def pyGet (d : List (String × ℚ)) (k : String) : Except String ℚ :=
  match d.lookup k with
  | some v => Except.ok v
  | none => Except.error ("KeyError: " ++ k)

/-- Python subscription `v[k]` on a dynamic value: `KeyError` when the key is
absent, `TypeError` when `v` is not a dict. -/
def pyIndex (v : PyVal) (k : String) : Except String PyVal :=
  match v with
  | PyVal.dict entries =>
    match entries.lookup k with
    | some w => Except.ok w
    | none => Except.error ("KeyError: " ++ k)
  | _ => Except.error "TypeError: value is not subscriptable"

/-- Using a dynamic value as a number (the source multiplies
`quantum_confidence` at line 158): `TypeError` when it is not one. -/
def pyAsNum (v : PyVal) : Except String ℚ :=
  match v with
  | PyVal.num q => Except.ok q
  | _ => Except.error "TypeError: expected a number"

/-- The initial `verification_result` dict literal, lines 83-94. -/
def emptyResult (env : PyEnv) (metal_type : Int) (weight purity : ℚ) : VResult :=
  { verified := false
    confidence := 0
    metal_type := metal_type
    weight := weight
    purity := purity
    verification_id := ""
    timestamp := env.now
    ai_analysis := []
    quantum_verification := PyVal.dict []
    blockchain_ready := false
    ai_confidence := none
    quantum_confidence := none
    error := none }

/-- Lines 97-100: `if sensor_data is None and NUMPY_AVAILABLE:` generate a mock
256-element random vector, otherwise keep `sensor_data` as passed. -/
def genSensor (env : PyEnv) (sensor_data : Option (List ℚ)) : Option (List ℚ) :=
  match sensor_data with
  | none => if env.numpyAvailable then some ((List.range 256).map env.rng) else none
  | some s => some s

/-- Lines 102-128: AI material analysis. The `density_match` and `purity_match`
booleans are computed (their dict lookups can raise `KeyError`) but never read
afterwards, exactly as in the source. Returns the updated result dict paired
with the pending exception, if any. -/
def analysisStage (self : GodAIVerifier) (metal_type : Int) (purity : ℚ)
    (sensor_data : Option (List ℚ)) (r : VResult) : VResult × Option String :=
  match self.material_analyzer, sensor_data with
  | some analyze, some sdata =>
    match analyze sdata with
    | Except.error e => (r, some e)
    | Except.ok analysis =>
      let r1 := { r with ai_analysis := analysis }
      let expected_density : ℚ := if metal_type = 1 then 19.3 else 10.5
      match pyGet analysis "density" with
      | Except.error e => (r1, some e)
      | Except.ok d =>
        let _density_match : Bool := decide (|d - expected_density| < 1)
        match pyGet analysis "purity" with
        | Except.error e => (r1, some e)
        | Except.ok ap =>
          let _purity_match : Bool := decide (|ap - purity| < 0.05)
          match pyGet analysis "ai_embedded_efficiency" with
          | Except.error e => (r1, some e)
          | Except.ok eff =>
            match pyGet analysis "thermal_stability" with
            | Except.error e => (r1, some e)
            | Except.ok th =>
              match pyGet analysis "neural_interface_strength" with
              | Except.error e => (r1, some e)
              | Except.ok ns =>
                ({ r1 with ai_confidence := some ((eff + th + ns) / 3) }, none)
  | _, _ =>
    ({ r with
        ai_analysis :=
          [("conductivity", 0.9),
           ("density", if metal_type = 1 then 19.3 else 10.5),
           ("purity", purity),
           ("ai_embedded_efficiency", 0.85)]
        ai_confidence := some 0.85 }, none)

/-- Lines 130-150: quantum verification. When `quantum_simulator` is truthy the
source calls `self.interface.quantum_compute`; with `interface` still `None`
that attribute access raises. The extracted stability is required to be a
number here (the source would only fail later, at the multiplication of
line 158, if it were not). -/
def quantumStage (self : GodAIVerifier) (metal_type : Int) (weight purity : ℚ)
    (sensor_data : Option (List ℚ)) (r : VResult) : VResult × Option String :=
  if self.quantum_simulator then
    let quantum_input : QuantumInput :=
      { state := match sensor_data with
          | some s => s
          | none => List.replicate 1024 0.5
        metal_type := metal_type
        weight := weight
        purity := purity }
    match self.interface with
    | none => (r, some "AttributeError: NoneType object has no attribute quantum_compute")
    | some qcompute =>
      match qcompute quantum_input with
      | Except.error e => (r, some e)
      | Except.ok quantum_result =>
        let r1 := { r with quantum_verification := quantum_result }
        match pyIndex quantum_result "result" with
        | Except.error e => (r1, some e)
        | Except.ok inner =>
          match pyIndex inner "stability" with
          | Except.error e => (r1, some e)
          | Except.ok sval =>
            match pyAsNum sval with
            | Except.error e => (r1, some e)
            | Except.ok stability =>
              ({ r1 with quantum_confidence := some stability }, none)
  else
    ({ r with
        quantum_verification :=
          PyVal.dict
            [("result", PyVal.dict [("stability", PyVal.num 0.9),
                                    ("entanglement_measure", PyVal.num 0.8)]),
             ("blackwell_accelerated", PyVal.pybool false)]
        quantum_confidence := some 0.9 }, none)

/-- Lines 152-171: the overall verification decision. Reading the
`ai_confidence` / `quantum_confidence` keys would raise `KeyError` were they
absent (they never are on the paths that reach this point). -/
def overallDecision (env : PyEnv) (metal_type : Int) (weight purity : ℚ)
    (r : VResult) : VResult × Option String :=
  match r.ai_confidence with
  | none => (r, some "KeyError: ai_confidence")
  | some a =>
    match r.quantum_confidence with
    | none => (r, some "KeyError: quantum_confidence")
    | some q =>
      let overall_confidence : ℚ := a * 0.6 + q * 0.4
      let r1 := { r with
        confidence := overall_confidence
        verified := decide (overall_confidence > 0.8) }
      if r1.verified then
        let data_to_hash :=
          toString metal_type ++ env.fmtFloat weight ++ env.fmtFloat purity ++ r1.timestamp
        ({ r1 with
            verification_id := env.sha256hex data_to_hash
            blockchain_ready := true }, none)
      else (r1, none)

/-- Sequencing inside the `try` block: a pending exception skips the rest of
the body but keeps the partially updated result dict. -/
def andThen (x : VResult × Option String)
    (f : VResult → VResult × Option String) : VResult × Option String :=
  match x with
  | (r, none) => f r
  | (r, some e) => (r, some e)

/-- The body of the `try` block of `verify_metal_properties` (lines 96-171),
excluding the final history append. -/
def verifyBody (env : PyEnv) (self : GodAIVerifier) (metal_type : Int)
    (weight purity : ℚ) (sensor_data : Option (List ℚ)) (r0 : VResult) :
    VResult × Option String :=
  andThen (analysisStage self metal_type purity (genSensor env sensor_data) r0) (fun r1 =>
    andThen (quantumStage self metal_type weight purity (genSensor env sensor_data) r1) (fun r2 =>
      overallDecision env metal_type weight purity r2))

/-- `GodAIVerifier.verify_metal_properties` (lines 63-180): build the initial
result dict, run the `try` body; on success append the result to
`verification_history` (line 174), on an exception record its text under
`error` (line 178); either way return the result dict (line 180). -/
def verify_metal_properties (env : PyEnv) (self : GodAIVerifier)
    (metal_type : Int) (weight purity : ℚ) (sensor_data : Option (List ℚ)) :
    GodAIVerifier × VResult :=
  match verifyBody env self metal_type weight purity sensor_data
      (emptyResult env metal_type weight purity) with
  | (r, none) =>
    ({ self with verification_history := self.verification_history ++ [r] }, r)
  | (r, some e) => (self, { r with error := some e })

/-- `GodAIVerifier.get_verification_history` (lines 182-184). -/
def get_verification_history (self : GodAIVerifier) : List VResult :=
  self.verification_history

/-- A file system, mapping filenames to file contents; a fresh write shadows
the previous content. -/
def FileSys : Type := List (String × String)

/-- `GodAIVerifier.save_verification_log` (lines 186-189): write
`json.dump(self.verification_history)` to `filename`. -/
def save_verification_log (env : PyEnv) (self : GodAIVerifier) (fs : FileSys)
    (filename : String) : FileSys :=
  (filename, env.jdump self.verification_history) :: fs

/-- `GodAIVerifier.load_verification_log` (lines 191-195): when `filename`
exists, parse it and replace `verification_history`; a parse failure
propagates (there is no handler around `json.load`). -/
def load_verification_log (env : PyEnv) (self : GodAIVerifier) (fs : FileSys)
    (filename : String) : Except String GodAIVerifier :=
  match List.lookup filename fs with
  | none => Except.ok self
  | some content =>
    match env.jload content with
    | Except.error e => Except.error e
    | Except.ok h => Except.ok { self with verification_history := h }

/-! ## Structural lemmas about the stages -/

/-- Sequencing that ends without a pending exception means each part ended
without one. -/
lemma andThen_eq_ok (x : VResult × Option String)
    (f : VResult → VResult × Option String) (r : VResult)
    (h : andThen x f = (r, none)) : ∃ r1, x = (r1, none) ∧ f r1 = (r, none) := by
  obtain ⟨r1, e⟩ := x
  cases e with
  | none => exact ⟨r1, rfl, h⟩
  | some e0 =>
    injection h with h1 h2
    cases h2

/-- The analysis stage only ever writes the `ai_analysis` and `ai_confidence`
fields of the result dict. -/
lemma analysisStage_frame (self : GodAIVerifier) (mt : Int) (p : ℚ)
    (sd : Option (List ℚ)) (r rb : VResult) (e : Option String)
    (h : analysisStage self mt p sd r = (rb, e)) :
    rb = { r with ai_analysis := rb.ai_analysis, ai_confidence := rb.ai_confidence } := by
  unfold analysisStage at h
  repeat' (first | split at h | simp only [] at h)
  all_goals (injection h with h1 h2; subst h1; rfl)

/-- When the analysis stage raises no exception, it has set `ai_confidence`. -/
lemma analysisStage_ok_conf (self : GodAIVerifier) (mt : Int) (p : ℚ)
    (sd : Option (List ℚ)) (r rb : VResult)
    (h : analysisStage self mt p sd r = (rb, none)) :
    ∃ c, rb.ai_confidence = some c := by
  unfold analysisStage at h
  repeat' (first | split at h | simp only [] at h)
  all_goals (injection h with h1 h2)
  all_goals first
  | (subst h1; exact ⟨_, rfl⟩)
  | cases h2

/-- The quantum stage only ever writes the `quantum_verification` and
`quantum_confidence` fields of the result dict. -/
lemma quantumStage_frame (self : GodAIVerifier) (mt : Int) (w p : ℚ)
    (sd : Option (List ℚ)) (r rb : VResult) (e : Option String)
    (h : quantumStage self mt w p sd r = (rb, e)) :
    rb = { r with quantum_verification := rb.quantum_verification,
                  quantum_confidence := rb.quantum_confidence } := by
  unfold quantumStage at h
  repeat' (first | split at h | simp only [] at h)
  all_goals (injection h with h1 h2; subst h1; rfl)

/-- When the quantum stage raises no exception, it has set
`quantum_confidence`. -/
lemma quantumStage_ok_conf (self : GodAIVerifier) (mt : Int) (w p : ℚ)
    (sd : Option (List ℚ)) (r rb : VResult)
    (h : quantumStage self mt w p sd r = (rb, none)) :
    ∃ c, rb.quantum_confidence = some c := by
  unfold quantumStage at h
  repeat' (first | split at h | simp only [] at h)
  all_goals (injection h with h1 h2)
  all_goals first
  | (subst h1; exact ⟨_, rfl⟩)
  | cases h2

/-- The decision stage only ever writes the `confidence`, `verified`,
`verification_id` and `blockchain_ready` fields of the result dict. -/
lemma overallDecision_frame (env : PyEnv) (mt : Int) (w p : ℚ)
    (r rb : VResult) (e : Option String)
    (h : overallDecision env mt w p r = (rb, e)) :
    rb = { r with confidence := rb.confidence, verified := rb.verified,
                  verification_id := rb.verification_id,
                  blockchain_ready := rb.blockchain_ready } := by
  unfold overallDecision at h
  repeat' (first | split at h | simp only [] at h)
  all_goals (injection h with h1 h2; subst h1; rfl)

/-- Full characterisation of the decision stage on its exception-free path
(lines 152-171 of the source). -/
lemma overallDecision_ok (env : PyEnv) (mt : Int) (w p : ℚ) (r rb : VResult)
    (h : overallDecision env mt w p r = (rb, none)) :
    ∃ a q, r.ai_confidence = some a ∧ r.quantum_confidence = some q ∧
      rb.confidence = a * 0.6 + q * 0.4 ∧
      rb.verified = decide (a * 0.6 + q * 0.4 > 0.8) ∧
      (rb.verified = true →
        rb.verification_id =
          env.sha256hex (toString mt ++ env.fmtFloat w ++ env.fmtFloat p ++ r.timestamp) ∧
        rb.blockchain_ready = true) ∧
      (rb.verified = false →
        rb.verification_id = r.verification_id ∧
        rb.blockchain_ready = r.blockchain_ready) := by
  unfold overallDecision at h
  repeat' (first | split at h | simp only [] at h)
  all_goals (injection h with h1 h2)
  · cases h2
  · cases h2
  all_goals subst h1
  · refine ⟨_, _, by assumption, by assumption, rfl, rfl, fun _ => ⟨rfl, rfl⟩,
      fun hfalse => ?_⟩
    simp_all
  · refine ⟨_, _, by assumption, by assumption, rfl, rfl, fun htrue => ?_,
      fun _ => ⟨rfl, rfl⟩⟩
    simp_all
    exact absurd htrue (not_lt.mpr (by assumption))

/-- The `error` field is never written inside the `try` body: whatver the body
does, the result dict it hands back carries the `error` value of the initial
dict. -/
lemma verifyBody_error (env : PyEnv) (self : GodAIVerifier) (mt : Int)
    (w p : ℚ) (sd : Option (List ℚ)) (r0 rb : VResult) (e : Option String)
    (h : verifyBody env self mt w p sd r0 = (rb, e)) : rb.error = r0.error := by
  unfold verifyBody at h
  rcases h1 : analysisStage self mt p (genSensor env sd) r0 with ⟨r1, e1⟩
  rw [h1] at h
  have he1 : r1.error = r0.error := by
    rw [analysisStage_frame self mt p (genSensor env sd) r0 r1 e1 h1]
  cases e1 with
  | some e0 =>
    simp only [andThen] at h
    injection h with hh1 hh2
    subst hh1
    exact he1
  | none =>
    simp only [andThen] at h
    rcases h2 : quantumStage self mt w p (genSensor env sd) r1 with ⟨r2, e2⟩
    rw [h2] at h
    have he2 : r2.error = r1.error := by
      rw [quantumStage_frame self mt w p (genSensor env sd) r1 r2 e2 h2]
    cases e2 with
    | some e0 =>
      simp only [andThen] at h
      injection h with hh1 hh2
      subst hh1
      exact he2.trans he1
    | none =>
      simp only [andThen] at h
      have he3 : rb.error = r2.error := by
        rw [overallDecision_frame env mt w p r2 rb e h]
      exact (he3.trans he2).trans he1

/-- Full characterisation of the exception-free runs of the `try` body: the
confidences are set, the overall confidence is their 60/40 weighted average,
`verified` is the strict 0.8 threshold test on it, the identifying fields are
those of the initial dict, and the `verification_id` / `blockchain_ready`
fields are set exactly on the verified branch. -/
lemma verifyBody_ok (env : PyEnv) (self : GodAIVerifier) (mt : Int) (w p : ℚ)
    (sd : Option (List ℚ)) (r0 rb : VResult)
    (h : verifyBody env self mt w p sd r0 = (rb, none)) :
    ∃ a q, rb.ai_confidence = some a ∧ rb.quantum_confidence = some q ∧
      rb.confidence = a * 0.6 + q * 0.4 ∧
      rb.verified = decide (a * 0.6 + q * 0.4 > 0.8) ∧
      rb.metal_type = r0.metal_type ∧ rb.weight = r0.weight ∧
      rb.purity = r0.purity ∧ rb.timestamp = r0.timestamp ∧
      rb.error = r0.error ∧
      (rb.verified = true →
        rb.verification_id =
          env.sha256hex (toString mt ++ env.fmtFloat w ++ env.fmtFloat p ++ r0.timestamp) ∧
        rb.blockchain_ready = true) ∧
      (rb.verified = false →
        rb.verification_id = r0.verification_id ∧
        rb.blockchain_ready = r0.blockchain_ready) := by
  have herr := verifyBody_error env self mt w p sd r0 rb none h
  unfold verifyBody at h
  obtain ⟨r1, h1, h2⟩ := andThen_eq_ok _ _ _ h
  obtain ⟨r2, h2a, h2b⟩ := andThen_eq_ok _ _ _ h2
  obtain ⟨a, q, ha, hq, hconf, hver, htrue, hfalse⟩ :=
    overallDecision_ok env mt w p r2 rb h2b
  have hf1 := analysisStage_frame _ _ _ _ _ _ _ h1
  have hf2 := quantumStage_frame _ _ _ _ _ _ _ _ h2a
  have hf3 := overallDecision_frame _ _ _ _ _ _ _ h2b
  have ht2 : r2.timestamp = r0.timestamp := by rw [hf2, hf1]
  refine ⟨a, q, ?_, ?_, hconf, hver, ?_, ?_, ?_, ?_, herr, ?_, ?_⟩
  · rw [hf3]; exact ha
  · rw [hf3]; exact hq
  · rw [hf3, hf2, hf1]
  · rw [hf3, hf2, hf1]
  · rw [hf3, hf2, hf1]
  · rw [hf3, hf2, hf1]
  · intro hv
    obtain ⟨hid, hb⟩ := htrue hv
    rw [ht2] at hid
    exact ⟨hid, hb⟩
  · intro hv
    obtain ⟨hid, hb⟩ := hfalse hv
    refine ⟨hid.trans ?_, hb.trans ?_⟩
    · rw [hf2, hf1]
    · rw [hf2, hf1]

/-- `verify_metal_properties` either appends the body's result to the history
and returns it, or, when the body raised, returns it with the exception text
under `error` and leaves the state alone. -/
lemma verify_cases (env : PyEnv) (self : GodAIVerifier) (mt : Int) (w p : ℚ)
    (sd : Option (List ℚ)) :
    (∃ rb, verifyBody env self mt w p sd (emptyResult env mt w p) = (rb, none) ∧
      verify_metal_properties env self mt w p sd =
        ({ self with verification_history := self.verification_history ++ [rb] }, rb)) ∨
    (∃ rb e0, verifyBody env self mt w p sd (emptyResult env mt w p) = (rb, some e0) ∧
      verify_metal_properties env self mt w p sd = (self, { rb with error := some e0 })) := by
  rcases hb : verifyBody env self mt w p sd (emptyResult env mt w p) with ⟨rb, eb⟩
  cases eb with
  | none => exact Or.inl ⟨rb, rfl, by unfold verify_metal_properties; rw [hb]⟩
  | some e0 =>
    exact Or.inr ⟨rb, e0, rfl, by unfold verify_metal_properties; rw [hb]⟩

/-! ## The claims -/

/-- Claim C1: every exception-free call of `verify_metal_properties` returns a
result whose `confidence` equals the fixed-weight combination
`ai_confidence * 0.6 + quantum_confidence * 0.4` of the result's two
confidence fields. -/
theorem confidence_is_weighted_average (env : PyEnv) (self : GodAIVerifier)
    (mt : Int) (w p : ℚ) (sd : Option (List ℚ))
    (h : (verify_metal_properties env self mt w p sd).2.error = none) :
    ∃ a q,
      (verify_metal_properties env self mt w p sd).2.ai_confidence = some a ∧
      (verify_metal_properties env self mt w p sd).2.quantum_confidence = some q ∧
      (verify_metal_properties env self mt w p sd).2.confidence = a * 0.6 + q * 0.4 := by
  rcases verify_cases env self mt w p sd with ⟨rb, hb, hv⟩ | ⟨rb, e0, hb, hv⟩
  · obtain ⟨a, q, ha, hq, hconf, _⟩ := verifyBody_ok env self mt w p sd _ rb hb
    rw [hv]
    exact ⟨a, q, ha, hq, hconf⟩
  · rw [hv] at h
    exact Option.noConfusion h

/-- Claim C2: every exception-free call marks the result `verified` exactly
when the computed overall confidence strictly exceeds the hard-coded `0.8`
threshold. -/
theorem verified_iff_above_threshold (env : PyEnv) (self : GodAIVerifier)
    (mt : Int) (w p : ℚ) (sd : Option (List ℚ))
    (h : (verify_metal_properties env self mt w p sd).2.error = none) :
    ((verify_metal_properties env self mt w p sd).2.verified = true ↔
      (verify_metal_properties env self mt w p sd).2.confidence > 0.8) := by
  rcases verify_cases env self mt w p sd with ⟨rb, hb, hv⟩ | ⟨rb, e0, hb, hv⟩
  · obtain ⟨a, q, _, _, hconf, hver, _⟩ := verifyBody_ok env self mt w p sd _ rb hb
    rw [hv]
    show rb.verified = true ↔ rb.confidence > 0.8
    rw [hconf, hver]
    exact decide_eq_true_iff
  · rw [hv] at h
    exact Option.noConfusion h

/-- Claim C3: on every exception-free call, a verified result's
`verification_id` is the SHA-256 hex digest of the concatenation of
`metal_type`, `weight`, `purity` and the result's `timestamp`, while an
unverified result keeps the empty `verification_id`. -/
theorem verification_id_from_sha256 (env : PyEnv) (self : GodAIVerifier)
    (mt : Int) (w p : ℚ) (sd : Option (List ℚ))
    (h : (verify_metal_properties env self mt w p sd).2.error = none) :
    ((verify_metal_properties env self mt w p sd).2.verified = true →
      (verify_metal_properties env self mt w p sd).2.verification_id =
        env.sha256hex (toString mt ++ env.fmtFloat w ++ env.fmtFloat p ++
          (verify_metal_properties env self mt w p sd).2.timestamp)) ∧
    ((verify_metal_properties env self mt w p sd).2.verified = false →
      (verify_metal_properties env self mt w p sd).2.verification_id = "") := by
  rcases verify_cases env self mt w p sd with ⟨rb, hb, hv⟩ | ⟨rb, e0, hb, hv⟩
  · obtain ⟨a, q, _, _, _, _, _, _, _, hts, _, htrue, hfalse⟩ :=
      verifyBody_ok env self mt w p sd _ rb hb
    rw [hv]
    refine ⟨fun hver => ?_, fun hver => (hfalse hver).1⟩
    show rb.verification_id = _
    rw [hts]
    exact (htrue hver).1
  · rw [hv] at h
    exact Option.noConfusion h

/-- Claim C4: when the `try` body raises, `verify_metal_properties` catches the
exception, records its text under the result's `error` key, still returns the
result dict, and leaves the verifier state untouched; being a total function
of its arguments, it never propagates an exception. -/
theorem broad_catch_records_error (env : PyEnv) (self : GodAIVerifier)
    (mt : Int) (w p : ℚ) (sd : Option (List ℚ)) (rb : VResult) (e0 : String)
    (h : verifyBody env self mt w p sd (emptyResult env mt w p) = (rb, some e0)) :
    verify_metal_properties env self mt w p sd = (self, { rb with error := some e0 }) ∧
    (verify_metal_properties env self mt w p sd).2.error = some e0 := by
  have hv : verify_metal_properties env self mt w p sd =
      (self, { rb with error := some e0 }) := by
    unfold verify_metal_properties
    rw [h]
  exact ⟨hv, by rw [hv]⟩

/-- Evaluation of the whole call in the NOVA-unavailable fallback
configuration: the mock confidences 0.85 and 0.9 always verify. -/
lemma mockRun_spec (env : PyEnv) (self : GodAIVerifier)
    (mt : Int) (w p : ℚ) (sd : Option (List ℚ))
    (hma : self.material_analyzer = none)
    (hqs : self.quantum_simulator = false) :
    (verify_metal_properties env self mt w p sd).2.error = none ∧
    (verify_metal_properties env self mt w p sd).2.ai_confidence = some 0.85 ∧
    (verify_metal_properties env self mt w p sd).2.quantum_confidence = some 0.9 ∧
    (verify_metal_properties env self mt w p sd).2.confidence = 0.87 ∧
    (verify_metal_properties env self mt w p sd).2.verified = true ∧
    (verify_metal_properties env self mt w p sd).2.blockchain_ready = true := by
  have hA : analysisStage self mt p (genSensor env sd) (emptyResult env mt w p) =
      ({ emptyResult env mt w p with
          ai_analysis := [("conductivity", 0.9),
            ("density", if mt = 1 then (19.3 : ℚ) else 10.5),
            ("purity", p),
            ("ai_embedded_efficiency", 0.85)]
          ai_confidence := some 0.85 }, none) := by
    unfold analysisStage
    rw [hma]
  have hQ : ∀ r : VResult, quantumStage self mt w p (genSensor env sd) r =
      ({ r with
          quantum_verification := PyVal.dict
            [("result", PyVal.dict [("stability", PyVal.num 0.9),
                                    ("entanglement_measure", PyVal.num 0.8)]),
             ("blackwell_accelerated", PyVal.pybool false)]
          quantum_confidence := some 0.9 }, none) := by
    intro r
    unfold quantumStage
    rw [hqs]
    simp
  rcases verify_cases env self mt w p sd with ⟨rb, hb, hv⟩ | ⟨rb, e0, hb, hv⟩
  · unfold verifyBody at hb
    obtain ⟨r1, h1, h2⟩ := andThen_eq_ok _ _ _ hb
    obtain ⟨r2, h2a, h2b⟩ := andThen_eq_ok _ _ _ h2
    rw [hA] at h1
    injection h1 with h1a h1b
    subst h1a
    rw [hQ] at h2a
    injection h2a with h2c h2d
    subst h2c
    obtain ⟨a, q, ha, hq, hconf, hver, htrue, hfalse⟩ :=
      overallDecision_ok env mt w p _ rb h2b
    have ha2 : some (0.85 : ℚ) = some a := ha
    have hq2 : some (0.9 : ℚ) = some q := hq
    injection ha2 with ha3
    injection hq2 with hq3
    subst ha3
    subst hq3
    have hfr := overallDecision_frame env mt w p _ rb none h2b
    have hvtrue : rb.verified = true := by
      rw [hver]
      simp only [decide_eq_true_eq]
      norm_num
    rw [hv]
    refine ⟨?_, ?_, ?_, ?_, hvtrue, (htrue hvtrue).2⟩
    · rw [hfr]; try rfl
    · rw [hfr]; try rfl
    · rw [hfr]; try rfl
    · rw [hconf]
      norm_num
  · exfalso
    unfold verifyBody at hb
    rw [hA] at hb
    simp only [andThen] at hb
    rw [hQ] at hb
    simp only [andThen] at hb
    unfold overallDecision at hb
    simp only [] at hb
    repeat' (first | split at hb | simp only [] at hb)
    all_goals (injection hb with hb1 hb2; cases hb2)

/-- Claim C5: with NOVA-BLOCKS unavailable (`material_analyzer` is `None` and
`quantum_simulator` falsy) the mock fallbacks fix `ai_confidence = 0.85` and
`quantum_confidence = 0.9`, so for every input the call is exception-free with
overall confidence `0.87` and the result is verified and blockchain-ready. -/
theorem mock_fallback_always_verifies (env : PyEnv) (self : GodAIVerifier)
    (mt : Int) (w p : ℚ) (sd : Option (List ℚ))
    (hma : self.material_analyzer = none)
    (hqs : self.quantum_simulator = false) :
    (verify_metal_properties env self mt w p sd).2.error = none ∧
    (verify_metal_properties env self mt w p sd).2.ai_confidence = some 0.85 ∧
    (verify_metal_properties env self mt w p sd).2.quantum_confidence = some 0.9 ∧
    (verify_metal_properties env self mt w p sd).2.confidence = 0.87 ∧
    (verify_metal_properties env self mt w p sd).2.verified = true ∧
    (verify_metal_properties env self mt w p sd).2.blockchain_ready = true :=
  mockRun_spec env self mt w p sd hma hqs

/-- Claim C7: an exception-free call appends exactly the returned result dict
to `verification_history` (which `get_verification_history` returns), while a
caught exception leaves the history unchanged. -/
theorem history_appended_exactly_on_success (env : PyEnv) (self : GodAIVerifier)
    (mt : Int) (w p : ℚ) (sd : Option (List ℚ)) :
    ((verify_metal_properties env self mt w p sd).2.error = none →
      (verify_metal_properties env self mt w p sd).1.verification_history =
        self.verification_history ++ [(verify_metal_properties env self mt w p sd).2] ∧
      get_verification_history (verify_metal_properties env self mt w p sd).1 =
        self.verification_history ++ [(verify_metal_properties env self mt w p sd).2]) ∧
    (∀ e0, (verify_metal_properties env self mt w p sd).2.error = some e0 →
      (verify_metal_properties env self mt w p sd).1.verification_history =
        self.verification_history) := by
  rcases verify_cases env self mt w p sd with ⟨rb, hb, hv⟩ | ⟨rb, e0, hb, hv⟩
  · have herr : rb.error = none := verifyBody_error env self mt w p sd _ rb none hb
    constructor
    · intro _
      rw [hv]
      exact ⟨rfl, rfl⟩
    · intro e1 he
      rw [hv] at he
      have : none = some e1 := herr.symm.trans he
      cases this
  · constructor
    · intro he
      rw [hv] at he
      exact Option.noConfusion he
    · intro e1 _
      rw [hv]

/-- Claim C9: when `sensor_data` is `None` and numpy is available, the body
synthesises a 256-element random vector and every later stage of
`verify_metal_properties` consumes exactly that vector; a provided
`sensor_data` is passed through unchanged. -/
theorem sensor_data_generation (env : PyEnv) (hnp : env.numpyAvailable = true) :
    genSensor env none = some ((List.range 256).map env.rng) ∧
    ((List.range 256).map env.rng).length = 256 ∧
    (∀ s, genSensor env (some s) = some s) ∧
    (∀ (self : GodAIVerifier) (mt : Int) (w p : ℚ) (sd : Option (List ℚ))
        (r0 : VResult),
      verifyBody env self mt w p sd r0 =
        andThen (analysisStage self mt p (genSensor env sd) r0) (fun r1 =>
          andThen (quantumStage self mt w p (genSensor env sd) r1) (fun r2 =>
            overallDecision env mt w p r2))) := by
  refine ⟨?_, by simp, fun s => rfl, fun _ _ _ _ _ _ => rfl⟩
  unfold genSensor
  rw [hnp]
  rfl

/-- Claim C10: for every exception-free result, `blockchain_ready` equals
`verified`, `verification_id` is non-empty exactly when the result is
verified (SHA-256 hex digests are 64 characters, hence non-empty, which is
the stated contract `hlen` of the hash), and the `metal_type`, `weight` and
`purity` fields echo the arguments. -/
theorem result_field_invariants (env : PyEnv) (self : GodAIVerifier)
    (mt : Int) (w p : ℚ) (sd : Option (List ℚ))
    (hlen : ∀ s, env.sha256hex s ≠ "")
    (h : (verify_metal_properties env self mt w p sd).2.error = none) :
    (verify_metal_properties env self mt w p sd).2.blockchain_ready =
      (verify_metal_properties env self mt w p sd).2.verified ∧
    ((verify_metal_properties env self mt w p sd).2.verification_id ≠ "" ↔
      (verify_metal_properties env self mt w p sd).2.verified = true) ∧
    (verify_metal_properties env self mt w p sd).2.metal_type = mt ∧
    (verify_metal_properties env self mt w p sd).2.weight = w ∧
    (verify_metal_properties env self mt w p sd).2.purity = p := by
  rcases verify_cases env self mt w p sd with ⟨rb, hb, hv⟩ | ⟨rb, e0, hb, hv⟩
  · obtain ⟨a, q, _, _, _, _, hmt, hw, hp, _, _, htrue, hfalse⟩ :=
      verifyBody_ok env self mt w p sd _ rb hb
    rw [hv]
    refine ⟨?_, ⟨?_, ?_⟩, hmt, hw, hp⟩
    · cases hvb : rb.verified with
      | true => exact (htrue hvb).2
      | false => exact (hfalse hvb).2
    · intro hne
      cases hvb : rb.verified with
      | true => rfl
      | false => exact absurd (hfalse hvb).1 hne
    · intro hvb
      show rb.verification_id ≠ ""
      rw [(htrue hvb).1]
      exact hlen _
  · rw [hv] at h
    exact Option.noConfusion h

/-- Evaluation of the analysis stage when the analyzer returns a dict `a`
containing all five keys the source reads. -/
lemma analysisStage_ok_eval (qs : Bool)
    (qi : Option (QuantumInput → Except String PyVal)) (hist : List VResult)
    (mt : Int) (p : ℚ) (sdata : List ℚ) (r : VResult)
    (a : List (String × ℚ)) (d pu eff th ns : ℚ)
    (hd : List.lookup "density" a = some d)
    (hp : List.lookup "purity" a = some pu)
    (he : List.lookup "ai_embedded_efficiency" a = some eff)
    (hth : List.lookup "thermal_stability" a = some th)
    (hns : List.lookup "neural_interface_strength" a = some ns) :
    analysisStage ⟨some (fun _ => Except.ok a), qs, qi, hist⟩ mt p (some sdata) r =
      ({ r with ai_analysis := a, ai_confidence := some ((eff + th + ns) / 3) },
        none) := by
  unfold analysisStage
  simp only [pyGet, hd, hp, he, hth, hns]

/-- The quantum stage neither reads nor keeps anything from the result's
`ai_analysis` field: substituting that field commutes with the stage. -/
lemma quantumStage_ai_analysis (self : GodAIVerifier) (mt : Int) (w p : ℚ)
    (sd : Option (List ℚ)) (r : VResult) (A : List (String × ℚ)) :
    quantumStage self mt w p sd { r with ai_analysis := A } =
      ({ (quantumStage self mt w p sd r).1 with ai_analysis := A },
        (quantumStage self mt w p sd r).2) := by
  unfold quantumStage
  repeat' (first | split | simp only [])

/-- The decision stage neither reads nor keeps anything from the result's
`ai_analysis` field: substituting that field commutes with the stage. -/
lemma overallDecision_ai_analysis (env : PyEnv) (mt : Int) (w p : ℚ)
    (r : VResult) (A : List (String × ℚ)) :
    overallDecision env mt w p { r with ai_analysis := A } =
      ({ (overallDecision env mt w p r).1 with ai_analysis := A },
        (overallDecision env mt w p r).2) := by
  unfold overallDecision
  repeat' (first | simp only [] | split)

/-- Claim C8: saving the verification log and then loading it back under the
same filename restores `verification_history` to the history that was saved,
given the `json` library's round-trip contract `hjson` on the dumped
document. -/
theorem save_load_round_trip (env : PyEnv) (self other : GodAIVerifier)
    (fs : FileSys) (filename : String)
    (hjson : env.jload (env.jdump self.verification_history) =
      Except.ok self.verification_history) :
    load_verification_log env other
        (save_verification_log env self fs filename) filename =
      Except.ok { other with verification_history := self.verification_history } := by
  unfold save_verification_log load_verification_log
  simp only [List.lookup, beq_self_eq_true, hjson]

/-- Claim C6: the `verified` decision depends only on the confidence values;
the `density` / `purity` entries of the analyzer's dict feed only the two
never-read match booleans, so two runs whose analyses agree on
`ai_embedded_efficiency`, `thermal_stability` and `neural_interface_strength`
but differ in `density` and `purity` produce the same `verified` outcome. -/
theorem verified_ignores_density_purity (env : PyEnv) (mt : Int) (w p : ℚ)
    (sdata : List ℚ) (qs : Bool)
    (qi : Option (QuantumInput → Except String PyVal)) (hist : List VResult)
    (a1 a2 : List (String × ℚ)) (d1 d2 pu1 pu2 eff th ns : ℚ)
    (hd1 : List.lookup "density" a1 = some d1)
    (hd2 : List.lookup "density" a2 = some d2)
    (hp1 : List.lookup "purity" a1 = some pu1)
    (hp2 : List.lookup "purity" a2 = some pu2)
    (he1 : List.lookup "ai_embedded_efficiency" a1 = some eff)
    (he2 : List.lookup "ai_embedded_efficiency" a2 = some eff)
    (hth1 : List.lookup "thermal_stability" a1 = some th)
    (hth2 : List.lookup "thermal_stability" a2 = some th)
    (hns1 : List.lookup "neural_interface_strength" a1 = some ns)
    (hns2 : List.lookup "neural_interface_strength" a2 = some ns) :
    (verify_metal_properties env
      ⟨some (fun _ => Except.ok a1), qs, qi, hist⟩ mt w p (some sdata)).2.verified =
    (verify_metal_properties env
      ⟨some (fun _ => Except.ok a2), qs, qi, hist⟩ mt w p (some sdata)).2.verified := by
  have hverared : ∀ (s : GodAIVerifier) (rB : VResult) (eB : Option String),
      verifyBody env s mt w p (some sdata) (emptyResult env mt w p) = (rB, eB) →
      (verify_metal_properties env s mt w p (some sdata)).2.verified = rB.verified := by
    intro s rB eB hB
    unfold verify_metal_properties
    rw [hB]
    cases eB <;> rfl
  have hA1 : analysisStage (⟨some (fun _ => Except.ok a1), qs, qi, hist⟩ : GodAIVerifier)
      mt p (genSensor env (some sdata)) (emptyResult env mt w p) =
      ({ emptyResult env mt w p with
          ai_analysis := a1
          ai_confidence := some ((eff + th + ns) / 3) }, none) :=
    analysisStage_ok_eval qs qi hist mt p sdata (emptyResult env mt w p)
      a1 d1 pu1 eff th ns hd1 hp1 he1 hth1 hns1
  have hA2 : analysisStage (⟨some (fun _ => Except.ok a2), qs, qi, hist⟩ : GodAIVerifier)
      mt p (genSensor env (some sdata)) (emptyResult env mt w p) =
      ({ emptyResult env mt w p with
          ai_analysis := a2
          ai_confidence := some ((eff + th + ns) / 3) }, none) :=
    analysisStage_ok_eval qs qi hist mt p sdata (emptyResult env mt w p)
      a2 d2 pu2 eff th ns hd2 hp2 he2 hth2 hns2
  have hsw : ∀ r : VResult,
      quantumStage (⟨some (fun _ => Except.ok a2), qs, qi, hist⟩ : GodAIVerifier)
        mt w p (genSensor env (some sdata)) r =
      quantumStage (⟨some (fun _ => Except.ok a1), qs, qi, hist⟩ : GodAIVerifier)
        mt w p (genSensor env (some sdata)) r := fun _ => rfl
  have hQ1 : quantumStage (⟨some (fun _ => Except.ok a1), qs, qi, hist⟩ : GodAIVerifier)
      mt w p (genSensor env (some sdata))
      ({ emptyResult env mt w p with
          ai_analysis := a1
          ai_confidence := some ((eff + th + ns) / 3) }) =
      ({ (quantumStage (⟨some (fun _ => Except.ok a1), qs, qi, hist⟩ : GodAIVerifier)
            mt w p (genSensor env (some sdata))
            ({ emptyResult env mt w p with
                ai_confidence := some ((eff + th + ns) / 3) })).1 with
          ai_analysis := a1 },
        (quantumStage (⟨some (fun _ => Except.ok a1), qs, qi, hist⟩ : GodAIVerifier)
            mt w p (genSensor env (some sdata))
            ({ emptyResult env mt w p with
                ai_confidence := some ((eff + th + ns) / 3) })).2) :=
    quantumStage_ai_analysis
      (⟨some (fun _ => Except.ok a1), qs, qi, hist⟩ : GodAIVerifier) mt w p
      (genSensor env (some sdata))
      ({ emptyResult env mt w p with ai_confidence := some ((eff + th + ns) / 3) }) a1
  have hQ2 : quantumStage (⟨some (fun _ => Except.ok a2), qs, qi, hist⟩ : GodAIVerifier)
      mt w p (genSensor env (some sdata))
      ({ emptyResult env mt w p with
          ai_analysis := a2
          ai_confidence := some ((eff + th + ns) / 3) }) =
      ({ (quantumStage (⟨some (fun _ => Except.ok a1), qs, qi, hist⟩ : GodAIVerifier)
            mt w p (genSensor env (some sdata))
            ({ emptyResult env mt w p with
                ai_confidence := some ((eff + th + ns) / 3) })).1 with
          ai_analysis := a2 },
        (quantumStage (⟨some (fun _ => Except.ok a1), qs, qi, hist⟩ : GodAIVerifier)
            mt w p (genSensor env (some sdata))
            ({ emptyResult env mt w p with
                ai_confidence := some ((eff + th + ns) / 3) })).2) :=
    (hsw _).trans
      (quantumStage_ai_analysis
        (⟨some (fun _ => Except.ok a1), qs, qi, hist⟩ : GodAIVerifier) mt w p
        (genSensor env (some sdata))
        ({ emptyResult env mt w p with ai_confidence := some ((eff + th + ns) / 3) }) a2)
  rcases hQ : quantumStage (⟨some (fun _ => Except.ok a1), qs, qi, hist⟩ : GodAIVerifier)
      mt w p (genSensor env (some sdata))
      ({ emptyResult env mt w p with ai_confidence := some ((eff + th + ns) / 3) })
    with ⟨rq, eq⟩
  rw [hQ] at hQ1 hQ2
  simp only [] at hQ1 hQ2
  cases eq with
  | some e =>
    have hB1 : verifyBody env (⟨some (fun _ => Except.ok a1), qs, qi, hist⟩ : GodAIVerifier)
        mt w p (some sdata) (emptyResult env mt w p) =
        ({ rq with ai_analysis := a1 }, some e) := by
      unfold verifyBody
      rw [hA1]
      simp only [andThen]
      rw [hQ1]
    have hB2 : verifyBody env (⟨some (fun _ => Except.ok a2), qs, qi, hist⟩ : GodAIVerifier)
        mt w p (some sdata) (emptyResult env mt w p) =
        ({ rq with ai_analysis := a2 }, some e) := by
      unfold verifyBody
      rw [hA2]
      simp only [andThen]
      rw [hQ2]
    rw [hverared _ _ _ hB1, hverared _ _ _ hB2]
  | none =>
    have hD1 := overallDecision_ai_analysis env mt w p rq a1
    have hD2 := overallDecision_ai_analysis env mt w p rq a2
    rcases hDD : overallDecision env mt w p rq with ⟨rd, ed⟩
    rw [hDD] at hD1 hD2
    simp only [] at hD1 hD2
    have hB1 : verifyBody env (⟨some (fun _ => Except.ok a1), qs, qi, hist⟩ : GodAIVerifier)
        mt w p (some sdata) (emptyResult env mt w p) =
        ({ rd with ai_analysis := a1 }, ed) := by
      unfold verifyBody
      rw [hA1]
      simp only [andThen]
      rw [hQ1]
      simp only [andThen]
      exact hD1
    have hB2 : verifyBody env (⟨some (fun _ => Except.ok a2), qs, qi, hist⟩ : GodAIVerifier)
        mt w p (some sdata) (emptyResult env mt w p) =
        ({ rd with ai_analysis := a2 }, ed) := by
      unfold verifyBody
      rw [hA2]
      simp only [andThen]
      rw [hQ2]
      simp only [andThen]
      exact hD2
    rw [hverared _ _ _ hB1, hverared _ _ _ hB2]

/-! ## Concrete instances used by the witness theorems -/

/-- A concrete environment: a constant rng draw, a fixed timestamp, a fixed
64-character hex digest, and a json pair that round-trips the empty history. -/
def envW : PyEnv where
  numpyAvailable := true
  rng := fun _ => 1/2
  now := "2026-01-01T00:00:00"
  sha256hex := fun _ =>
    "0123456789abcdef0123456789abcdef0123456789abcdef0123456789abcdef"
  fmtFloat := fun _ => "100.0"
  jdump := fun _ => "[]"
  jload := fun _ => Except.ok []

/-- The verifier state of the NOVA-unavailable fallback: no analyzer, no
quantum simulator, no interface, empty history. -/
def mockVerifier : GodAIVerifier where
  material_analyzer := none
  quantum_simulator := false
  interface := none
  verification_history := []

/-- A state whose `quantum_simulator` is truthy while `interface` is still
`None`, so the body raises an `AttributeError`. -/
def badVerifier : GodAIVerifier where
  material_analyzer := none
  quantum_simulator := true
  interface := none
  verification_history := []

/-- An analyzer dict with gold-like density and high purity. -/
def aHigh : List (String × ℚ) :=
  [("density", 19.3), ("purity", 0.999), ("ai_embedded_efficiency", 0.9),
   ("thermal_stability", 0.9), ("neural_interface_strength", 0.9)]

/-- The same dict with wildly different density and purity. -/
def aLow : List (String × ℚ) :=
  [("density", 1), ("purity", 0), ("ai_embedded_efficiency", 0.9),
   ("thermal_stability", 0.9), ("neural_interface_strength", 0.9)]

/-! ## Witnesses -/

/-- Witness for C1 at the mock fallback configuration. -/
theorem confidence_is_weighted_average_witness :
    ∃ a q,
      (verify_metal_properties envW mockVerifier 1 100 0.999 none).2.ai_confidence = some a ∧
      (verify_metal_properties envW mockVerifier 1 100 0.999 none).2.quantum_confidence = some q ∧
      (verify_metal_properties envW mockVerifier 1 100 0.999 none).2.confidence =
        a * 0.6 + q * 0.4 :=
  confidence_is_weighted_average envW mockVerifier 1 100 0.999 none
    (mockRun_spec envW mockVerifier 1 100 0.999 none rfl rfl).1

/-- Witness for C2 at the mock fallback configuration. -/
theorem verified_iff_above_threshold_witness :
    ((verify_metal_properties envW mockVerifier 1 100 0.999 none).2.verified = true ↔
      (verify_metal_properties envW mockVerifier 1 100 0.999 none).2.confidence > 0.8) :=
  verified_iff_above_threshold envW mockVerifier 1 100 0.999 none
    (mockRun_spec envW mockVerifier 1 100 0.999 none rfl rfl).1

/-- Witness for C3: the mock fallback run is verified, and its id is the
digest of the concatenated fields. -/
theorem verification_id_from_sha256_witness :
    (verify_metal_properties envW mockVerifier 1 100 0.999 none).2.verification_id =
      envW.sha256hex (toString (1 : Int) ++ envW.fmtFloat 100 ++ envW.fmtFloat 0.999 ++
        (verify_metal_properties envW mockVerifier 1 100 0.999 none).2.timestamp) :=
  (verification_id_from_sha256 envW mockVerifier 1 100 0.999 none
    (mockRun_spec envW mockVerifier 1 100 0.999 none rfl rfl).1).1
    (mockRun_spec envW mockVerifier 1 100 0.999 none rfl rfl).2.2.2.2.1

/-- Witness for C4: with a truthy `quantum_simulator` but a `None` interface
the body raises, the text is recorded and the state is returned unchanged. -/
theorem broad_catch_records_error_witness :
    verify_metal_properties envW badVerifier 1 100 0.999 (some [1]) =
      (badVerifier,
        { emptyResult envW 1 100 0.999 with
            ai_analysis := [("conductivity", 0.9), ("density", 19.3),
              ("purity", 0.999), ("ai_embedded_efficiency", 0.85)]
            ai_confidence := some 0.85
            error := some "AttributeError: NoneType object has no attribute quantum_compute" }) ∧
    (verify_metal_properties envW badVerifier 1 100 0.999 (some [1])).2.error =
      some "AttributeError: NoneType object has no attribute quantum_compute" :=
  broad_catch_records_error envW badVerifier 1 100 0.999 (some [1])
    ({ emptyResult envW 1 100 0.999 with
        ai_analysis := [("conductivity", 0.9), ("density", 19.3),
          ("purity", 0.999), ("ai_embedded_efficiency", 0.85)]
        ai_confidence := some 0.85 })
    "AttributeError: NoneType object has no attribute quantum_compute" (by rfl)

/-- Witness for C5 at an arbitrary silver input. -/
theorem mock_fallback_always_verifies_witness :
    (verify_metal_properties envW mockVerifier 2 50 0.9 (some [1])).2.error = none ∧
    (verify_metal_properties envW mockVerifier 2 50 0.9 (some [1])).2.ai_confidence = some 0.85 ∧
    (verify_metal_properties envW mockVerifier 2 50 0.9 (some [1])).2.quantum_confidence = some 0.9 ∧
    (verify_metal_properties envW mockVerifier 2 50 0.9 (some [1])).2.confidence = 0.87 ∧
    (verify_metal_properties envW mockVerifier 2 50 0.9 (some [1])).2.verified = true ∧
    (verify_metal_properties envW mockVerifier 2 50 0.9 (some [1])).2.blockchain_ready = true :=
  mock_fallback_always_verifies envW mockVerifier 2 50 0.9 (some [1]) rfl rfl

/-- Witness for C6: the two analyses differ in density (19.3 vs 1) and purity
(0.999 vs 0) yet yield the same verdict. -/
theorem verified_ignores_density_purity_witness :
    (verify_metal_properties envW
      ⟨some (fun _ => Except.ok aHigh), false, none, []⟩ 1 100 0.999 (some [1])).2.verified =
    (verify_metal_properties envW
      ⟨some (fun _ => Except.ok aLow), false, none, []⟩ 1 100 0.999 (some [1])).2.verified :=
  verified_ignores_density_purity envW 1 100 0.999 [1] false none [] aHigh aLow
    19.3 1 0.999 0 0.9 0.9 0.9 rfl rfl rfl rfl rfl rfl rfl rfl rfl rfl

/-- Witness for C7: the mock fallback run appends its result. -/
theorem history_appended_exactly_on_success_witness :
    (verify_metal_properties envW mockVerifier 2 10 0.9 (some [])).1.verification_history =
      mockVerifier.verification_history ++
        [(verify_metal_properties envW mockVerifier 2 10 0.9 (some [])).2] :=
  ((history_appended_exactly_on_success envW mockVerifier 2 10 0.9 (some [])).1
    (mockRun_spec envW mockVerifier 2 10 0.9 (some []) rfl rfl).1).1

/-- Witness for C8 with the empty history and `envW`'s json pair. -/
theorem save_load_round_trip_witness :
    load_verification_log envW mockVerifier
        (save_verification_log envW mockVerifier [] "verification_log.json")
        "verification_log.json" =
      Except.ok { mockVerifier with
        verification_history := mockVerifier.verification_history } :=
  save_load_round_trip envW mockVerifier mockVerifier [] "verification_log.json" rfl

/-- Witness for C9 at `envW`, where numpy is available. -/
theorem sensor_data_generation_witness :
    genSensor envW none = some ((List.range 256).map envW.rng) :=
  (sensor_data_generation envW rfl).1

/-- Witness for C10 at the mock fallback configuration. -/
theorem result_field_invariants_witness :
    (verify_metal_properties envW mockVerifier 1 100 0.999 none).2.blockchain_ready =
      (verify_metal_properties envW mockVerifier 1 100 0.999 none).2.verified ∧
    ((verify_metal_properties envW mockVerifier 1 100 0.999 none).2.verification_id ≠ "" ↔
      (verify_metal_properties envW mockVerifier 1 100 0.999 none).2.verified = true) ∧
    (verify_metal_properties envW mockVerifier 1 100 0.999 none).2.metal_type = 1 ∧
    (verify_metal_properties envW mockVerifier 1 100 0.999 none).2.weight = 100 ∧
    (verify_metal_properties envW mockVerifier 1 100 0.999 none).2.purity = 0.999 :=
  result_field_invariants envW mockVerifier 1 100 0.999 none
    (fun _ => by simp [envW]) (mockRun_spec envW mockVerifier 1 100 0.999 none rfl rfl).1

end GodToken
